import Mathlib

/-!
# Book Review Management System — shallow embedding

A Lean embedding of the Express/MySQL server of the Book Review
Management System (`server.js`, reproduced in `setup.md`).  The five
tables (users, books, reviews, comments, images) become lists of
records in a `Store`; each HTTP handler becomes a pure function from a
store (plus the decoded request) to a response together with the
updated store.  External collaborators are modelled per their
contracts: the storage engine is a keyed record store (parameterized
queries become list lookups), bcrypt is an injective one-way digest
with a matching compare, and a JWT is its decoded claims (an
`AuthHeader` is missing, invalid — bad signature / malformed /
expired — or valid with claims).

JavaScript `req.body` fields may be absent, so they are `Option`s, and
JS truthiness tests such as `!rating` and `!title` are modelled
exactly (absent, zero and the empty string are falsy).  Numbers are
`Rat` (JS numbers; the claims involve no rounding).  SQL `AVG` over an
empty set is `NULL`, modelled as `Option Rat`, with the handler's
`|| 0` becoming `Option.getD 0`.
-/

namespace BookReview

/-- A row of the `users` table. -/
structure User where
  id : Nat
  name : String
  email : String
  password : String
  role : String
deriving Repr, DecidableEq

/-- A row of the `books` table (`title` and `author` are NOT NULL). -/
structure Book where
  id : Nat
  title : String
  author : String
  isbn : Option String
  description : Option String
  published_year : Option Int
  genre : Option String
  cover_image : Option String
deriving Repr, DecidableEq

/-- A row of the `reviews` table. -/
structure Review where
  id : Nat
  book_id : Nat
  user_id : Nat
  rating : Rat
  review_text : Option String
deriving Repr, DecidableEq

/-- A row of the `comments` table. -/
structure Comment where
  id : Nat
  review_id : Nat
  user_id : Nat
  comment_text : String
deriving Repr, DecidableEq

/-- A row of the `images` table. -/
structure Image where
  id : Nat
  review_id : Nat
  image_url : String
  image_name : Option String
deriving Repr, DecidableEq

/-- The record store: the five tables plus the AUTO_INCREMENT counter of
each table. -/
structure Store where
  users : List User
  books : List Book
  reviews : List Review
  comments : List Comment
  images : List Image
  nextUserId : Nat
  nextBookId : Nat
  nextReviewId : Nat
  nextCommentId : Nat
  nextImageId : Nat
deriving Repr, DecidableEq

/-- The decoded claims carried by a signed token
(`{ id, email, name, role }`). -/
structure Claims where
  id : Nat
  email : String
  name : String
  role : String
deriving Repr, DecidableEq

/-- The `authorization` header of a request: absent, carrying a token that
`jwt.verify` rejects (bad signature, malformed, or expired), or carrying a
valid token, modelled by its decoded claims. -/
inductive AuthHeader where
  | missing
  | invalid
  | valid (claims : Claims)
deriving Repr, DecidableEq

/-- The error responses the handlers produce, by HTTP status. -/
inductive ApiError where
  | validation (msg : String)
  | duplicate (msg : String)
  | unauthorized (msg : String)
  | forbidden (msg : String)
  | notFound (msg : String)
  | internal (msg : String)
deriving Repr, DecidableEq

/-- A handler's outcome: a success payload or an error response. -/
inductive Res (α : Type) where
  | ok (a : α)
  | err (e : ApiError)
deriving Repr, DecidableEq

/-- Whether an outcome is a success (a 2xx response). -/
def Res.isOk {α : Type} : Res α → Bool
  | .ok _ => true
  | .err _ => false

/-- The HTTP status each error is surfaced with. -/
def ApiError.status : ApiError → Nat
  | .validation _ => 400
  | .duplicate _ => 400
  | .unauthorized _ => 401
  | .forbidden _ => 403
  | .notFound _ => 404
  | .internal _ => 500

/-- `verifyToken` middleware: no header is 401 "Access token required";
a header that `jwt.verify` rejects is 401 "Invalid token"; otherwise the
decoded claims are attached to the request. -/
def verifyToken : AuthHeader → Res Claims
  | .missing => .err (.unauthorized "Access token required")
  | .invalid => .err (.unauthorized "Invalid token")
  | .valid c => .ok c

/-- JS falsiness of an optional string field: absent or empty. -/
def strMissing : Option String → Bool
  | none => true
  | some s => s == ""

/-- The rating test of the review handlers:
`!rating || rating < 1 || rating > 5` (absent and `0` are falsy). -/
def ratingInvalid : Option Rat → Bool
  | none => true
  | some r => r == 0 || decide (r < 1) || decide (r > 5)

/-- `POST /books/:id/reviews`: validate the rating, check the book
exists, check the requester has not already reviewed it, insert. -/
def createReview (s : Store) (u : Claims) (bookId : Nat)
    (rating : Option Rat) (review_text : Option String) :
    Res Nat × Store :=
  if ratingInvalid rating then
    (.err (.validation "Rating must be between 1 and 5"), s)
  else
    match s.books.find? (fun b => b.id == bookId) with
    | none => (.err (.notFound "Book not found"), s)
    | some _ =>
      match s.reviews.find? (fun r => r.book_id == bookId && r.user_id == u.id) with
      | some _ => (.err (.duplicate "You have already reviewed this book"), s)
      | none =>
        let rid := s.nextReviewId
        let row : Review :=
          { id := rid, book_id := bookId, user_id := u.id
            rating := rating.getD 0, review_text := review_text }
        (.ok rid,
          { s with reviews := s.reviews ++ [row], nextReviewId := rid + 1 })

/-- `PUT /reviews/:id`: validate the rating, fetch the review, require
owner-or-admin, update the row in place. -/
def updateReview (s : Store) (u : Claims) (reviewId : Nat)
    (rating : Option Rat) (review_text : Option String) :
    Res Unit × Store :=
  if ratingInvalid rating then
    (.err (.validation "Rating must be between 1 and 5"), s)
  else
    match s.reviews.find? (fun r => r.id == reviewId) with
    | none => (.err (.notFound "Review not found"), s)
    | some rev =>
      if rev.user_id != u.id && u.role != "admin" then
        (.err (.forbidden "You can only edit your own reviews"), s)
      else
        (.ok (),
          { s with reviews := s.reviews.map (fun r =>
              if r.id == reviewId then
                { r with rating := rating.getD 0, review_text := review_text }
              else r) })

/-- `DELETE /reviews/:id`: fetch the review, require owner-or-admin,
delete it; the schema's `ON DELETE CASCADE` removes its comments and
images. -/
def deleteReview (s : Store) (u : Claims) (reviewId : Nat) :
    Res Unit × Store :=
  match s.reviews.find? (fun r => r.id == reviewId) with
  | none => (.err (.notFound "Review not found"), s)
  | some rev =>
    if rev.user_id != u.id && u.role != "admin" then
      (.err (.forbidden "You can only delete your own reviews"), s)
    else
      (.ok (),
        { s with
          reviews := s.reviews.filter (fun r => !(r.id == reviewId))
          comments := s.comments.filter (fun c => !(c.review_id == reviewId))
          images := s.images.filter (fun i => !(i.review_id == reviewId)) })

/-- The response of `GET /books/:id`. -/
structure BookDetail where
  book : Book
  reviews : List Review
  average_rating : Rat
  total_reviews : Nat
deriving Repr, DecidableEq

/-- `GET /books/:id`: fetch the book, its reviews, and
`SELECT AVG(rating), COUNT(*)` for the book.  SQL `AVG` over zero rows
is `NULL`; the handler's `avgRating[0].average_rating || 0` turns that
into `0`. -/
def getBookDetail (s : Store) (bookId : Nat) : Res BookDetail :=
  match s.books.find? (fun b => b.id == bookId) with
  | none => .err (.notFound "Book not found")
  | some book =>
    let revs := s.reviews.filter (fun r => r.book_id == bookId)
    let sqlAvg : Option Rat :=
      if revs.length = 0 then none
      else some ((revs.map Review.rating).sum / (revs.length : Rat))
    .ok { book := book, reviews := revs
          average_rating := sqlAvg.getD 0
          total_reviews := revs.length }

/-- `POST /reviews/:id/images`: require a URL, fetch the review, require
owner-or-admin on the parent review, insert the image. -/
def addImage (s : Store) (u : Claims) (reviewId : Nat)
    (image_url : Option String) (image_name : Option String) :
    Res Nat × Store :=
  if strMissing image_url then
    (.err (.validation "Image URL is required"), s)
  else
    match s.reviews.find? (fun r => r.id == reviewId) with
    | none => (.err (.notFound "Review not found"), s)
    | some rev =>
      if rev.user_id != u.id && u.role != "admin" then
        (.err (.forbidden "You can only add images to your own reviews"), s)
      else
        let iid := s.nextImageId
        let row : Image :=
          { id := iid, review_id := reviewId
            image_url := image_url.getD "", image_name := image_name }
        (.ok iid,
          { s with images := s.images ++ [row], nextImageId := iid + 1 })

/-- `DELETE /images/:id`: fetch the image, then its parent review (the
image row stores no owner), require owner-or-admin on that review,
delete the image.  The handler reads `review[0].user_id` without a
length check: a dangling `review_id` would throw and be caught as a
500 ("Failed to delete image"). -/
def deleteImage (s : Store) (u : Claims) (imageId : Nat) :
    Res Unit × Store :=
  match s.images.find? (fun i => i.id == imageId) with
  | none => (.err (.notFound "Image not found"), s)
  | some img =>
    match s.reviews.find? (fun r => r.id == img.review_id) with
    | none => (.err (.internal "Failed to delete image"), s)
    | some rev =>
      if rev.user_id != u.id && u.role != "admin" then
        (.err (.forbidden "You can only delete images from your own reviews"), s)
      else
        (.ok (),
          { s with images := s.images.filter (fun i => !(i.id == imageId)) })

/-- bcrypt, per its contract: an injective one-way digest.  The salt
only makes distinct digests of one plaintext co-verify, which nothing
here depends on, so a deterministic tag models it. -/
def bcryptHash (plaintext : String) : String := "bcrypt$" ++ plaintext

/-- `bcrypt.compare`: true exactly on the digest of the plaintext. -/
def bcryptCompare (plaintext digest : String) : Bool :=
  digest == bcryptHash plaintext

/-- `POST /register`: require all three fields, reject an existing
email, hash the password, insert the user (the schema defaults `role`
to `'user'`), and sign a token with role `'user'`.  The result carries
the decoded claims of the issued token. -/
def register (s : Store) (name email password : Option String) :
    Res Claims × Store :=
  if strMissing name || strMissing email || strMissing password then
    (.err (.validation "All fields are required"), s)
  else
    let n := name.getD ""
    let e := email.getD ""
    let p := password.getD ""
    match s.users.find? (fun x => x.email == e) with
    | some _ => (.err (.duplicate "User already exists"), s)
    | none =>
      let uid := s.nextUserId
      let row : User :=
        { id := uid, name := n, email := e
          password := bcryptHash p, role := "user" }
      (.ok { id := uid, email := e, name := n, role := "user" },
        { s with users := s.users ++ [row], nextUserId := uid + 1 })

/-- `POST /login`: require both fields, find the user by email, verify
the password, and sign a token from the stored row.  The result is the
decoded claims of the issued token. -/
def login (s : Store) (email password : Option String) :
    Res Claims :=
  if strMissing email || strMissing password then
    .err (.validation "Email and password are required")
  else
    match s.users.find? (fun x => x.email == email.getD "") with
    | none => .err (.unauthorized "Invalid credentials")
    | some user =>
      if bcryptCompare (password.getD "") user.password then
        .ok { id := user.id, email := user.email, name := user.name
              role := user.role }
      else
        .err (.unauthorized "Invalid credentials")

/-- `PUT /profile`: require name and email, reject an email taken by a
row with a different id (`WHERE email = ? AND id != ?`), update the
requester's row. -/
def updateProfile (s : Store) (u : Claims) (name email : Option String) :
    Res Unit × Store :=
  if strMissing name || strMissing email then
    (.err (.validation "Name and email are required"), s)
  else
    let e := email.getD ""
    match s.users.find? (fun x => x.email == e && x.id != u.id) with
    | some _ => (.err (.duplicate "Email already taken"), s)
    | none =>
      (.ok (),
        { s with users := s.users.map (fun x =>
            if x.id == u.id then { x with name := name.getD "", email := e }
            else x) })

/-- The body of `POST /books` / `PUT /books/:id`. -/
structure BookInput where
  title : Option String
  author : Option String
  isbn : Option String
  description : Option String
  published_year : Option Int
  genre : Option String
  cover_image : Option String
deriving Repr, DecidableEq

/-- `POST /books`: run the token guard, require the admin role, require
title and author, insert the book. -/
def postBook (s : Store) (auth : AuthHeader) (body : BookInput) :
    Res Nat × Store :=
  match verifyToken auth with
  | .err e => (.err e, s)
  | .ok u =>
    if u.role != "admin" then
      (.err (.forbidden "Access denied. Admin privileges required."), s)
    else if strMissing body.title || strMissing body.author then
      (.err (.validation "Title and author are required"), s)
    else
      let bid := s.nextBookId
      let row : Book :=
        { id := bid, title := body.title.getD "", author := body.author.getD ""
          isbn := body.isbn, description := body.description
          published_year := body.published_year, genre := body.genre
          cover_image := body.cover_image }
      (.ok bid,
        { s with books := s.books ++ [row], nextBookId := bid + 1 })

/-- `GET /users`: run the token guard, require the admin role, list the
users. -/
def getUsers (s : Store) (auth : AuthHeader) :
    Res (List User) :=
  match verifyToken auth with
  | .err e => .err e
  | .ok u =>
    if u.role != "admin" then
      .err (.forbidden "Access denied. Admin privileges required.")
    else
      .ok s.users

/-! ## Concrete sample data

A small population used to exercise the handlers on closed inputs:
three readers and an admin, one book, and (in `S1`) one review per
reader with ratings 5, 3 and 4, the first carrying an image. -/

/-- Claims of a reader. -/
def alice : Claims := ⟨1, "alice@example.com", "Alice", "user"⟩

/-- Claims of a second reader. -/
def bob : Claims := ⟨2, "bob@example.com", "Bob", "user"⟩

/-- Claims of a third reader. -/
def carol : Claims := ⟨3, "carol@example.com", "Carol", "user"⟩

/-- Claims of the administrator. -/
def adminU : Claims := ⟨4, "admin@example.com", "Admin User", "admin"⟩

/-- The `users` row behind a set of claims. -/
def userRow (c : Claims) (pw : String) : User :=
  ⟨c.id, c.name, c.email, bcryptHash pw, c.role⟩

/-- The one sample book. -/
def book1 : Book :=
  ⟨1, "The Great Gatsby", "F. Scott Fitzgerald", some "978-0743273565",
    none, some 1925, some "Classic Fiction", none⟩

/-- Review 1: alice rates book 1 with 5. -/
def rev1 : Review := ⟨1, 1, 1, 5, some "great"⟩

/-- Review 2: bob rates book 1 with 3. -/
def rev2 : Review := ⟨2, 1, 2, 3, none⟩

/-- Review 3: carol rates book 1 with 4. -/
def rev3 : Review := ⟨3, 1, 3, 4, none⟩

/-- An image attached to review 1 (alice's). -/
def img1 : Image := ⟨1, 1, "http://example.com/a.png", none⟩

/-- A store with the four users, the book, the three reviews and the
image. -/
def S1 : Store :=
  { users := [userRow alice "pw1", userRow bob "pw2", userRow carol "pw3",
              userRow adminU "admin123"]
    books := [book1]
    reviews := [rev1, rev2, rev3]
    comments := []
    images := [img1]
    nextUserId := 5, nextBookId := 2, nextReviewId := 4
    nextCommentId := 1, nextImageId := 2 }

/-- A store with the users and the book but no reviews yet. -/
def S2 : Store :=
  { users := [userRow alice "pw1", userRow bob "pw2", userRow carol "pw3",
              userRow adminU "admin123"]
    books := [book1]
    reviews := []
    comments := []
    images := []
    nextUserId := 5, nextBookId := 2, nextReviewId := 1
    nextCommentId := 1, nextImageId := 1 }

/-- The empty store. -/
def S0 : Store :=
  { users := [], books := [], reviews := [], comments := [], images := []
    nextUserId := 1, nextBookId := 1, nextReviewId := 1
    nextCommentId := 1, nextImageId := 1 }

/-! ## General lemmas -/

/-- The rating test passes exactly on ratings in `[1, 5]` (`!rating`
also rejects `0`, which `rating < 1` subsumes). -/
theorem ratingInvalid_eq_false_iff (r : Rat) :
    ratingInvalid (some r) = false ↔ 1 ≤ r ∧ r ≤ 5 := by
  simp only [ratingInvalid, Bool.or_eq_false_iff, beq_eq_false_iff_ne, ne_eq,
    decide_eq_false_iff_not, not_lt]
  constructor
  · rintro ⟨⟨_, h1⟩, h5⟩
    exact ⟨h1, h5⟩
  · rintro ⟨h1, h5⟩
    refine ⟨⟨fun h => ?_, h1⟩, h5⟩
    rw [h] at h1
    norm_num at h1

/-! ## The claims -/

/-- The owner-or-admin gate of the handlers,
`row.user_id !== req.user.id && req.user.role !== 'admin'`, is false
exactly when the requester owns the row or is an admin. -/
theorem ownerGate_eq_false_iff (a b : Nat) (role : String) :
    ((a != b && role != "admin") = false) ↔ (a = b ∨ role = "admin") := by
  simp
  tauto

/-- C1.  `GET /books/:id` returns `total_reviews` equal to the number
of the book's reviews and `average_rating` equal to their mean, with
`average_rating = 0` (no division by zero, no NaN) when the book has
no reviews. -/
theorem getBookDetail_aggregates (s : Store) (bookId : Nat) (d : BookDetail)
    (h : getBookDetail s bookId = .ok d) :
    d.total_reviews = (s.reviews.filter (fun r => r.book_id == bookId)).length ∧
    (d.total_reviews = 0 → d.average_rating = 0) ∧
    (0 < d.total_reviews →
      d.average_rating =
        ((s.reviews.filter (fun r => r.book_id == bookId)).map Review.rating).sum
          / (d.total_reviews : Rat)) := by
  unfold getBookDetail at h
  split at h
  · exact absurd h (by simp)
  · cases h
    refine ⟨rfl, fun h0 => ?_, fun hpos => ?_⟩
    · have h0l : (s.reviews.filter (fun r => r.book_id == bookId)).length = 0 := h0
      rw [if_pos h0l]
      rfl
    · have hne : ¬ (s.reviews.filter (fun r => r.book_id == bookId)).length = 0 :=
        Nat.pos_iff_ne_zero.mp hpos
      simp only [if_neg hne, Option.getD_some]

/-- C1 witness: on the store `S1`, whose one book has reviews rated
`[5, 3, 4]`, the handler returns `average_rating = 4` and
`total_reviews = 3`. -/
theorem getBookDetail_aggregates_witness :
    (BookDetail.mk book1 [rev1, rev2, rev3] 4 3).total_reviews
        = (S1.reviews.filter (fun r => r.book_id == 1)).length ∧
    ((BookDetail.mk book1 [rev1, rev2, rev3] 4 3).total_reviews = 0 →
      (BookDetail.mk book1 [rev1, rev2, rev3] 4 3).average_rating = 0) ∧
    (0 < (BookDetail.mk book1 [rev1, rev2, rev3] 4 3).total_reviews →
      (BookDetail.mk book1 [rev1, rev2, rev3] 4 3).average_rating =
        ((S1.reviews.filter (fun r => r.book_id == 1)).map Review.rating).sum
          / ((BookDetail.mk book1 [rev1, rev2, rev3] 4 3).total_reviews : Rat)) :=
  getBookDetail_aggregates S1 1 (BookDetail.mk book1 [rev1, rev2, rev3] 4 3)
    (by norm_num [getBookDetail, S1, book1, rev1, rev2, rev3, List.find?, List.filter])

/-- C2.  A second review by a user who already reviewed the book fails
with the duplicate error (status 400), the duplicate check running
before the insert: the store is returned unchanged, so no row is
inserted and the original review is untouched. -/
theorem createReview_duplicate (s : Store) (u : Claims) (bookId : Nat)
    (r : Rat) (t : Option String) (ex : Review)
    (hr1 : 1 ≤ r) (hr5 : r ≤ 5)
    (hb : (s.books.find? (fun b => b.id == bookId)).isSome = true)
    (hx : s.reviews.find? (fun rv => rv.book_id == bookId && rv.user_id == u.id)
        = some ex) :
    createReview s u bookId (some r) t
      = (.err (.duplicate "You have already reviewed this book"), s) ∧
    (ApiError.duplicate "You have already reviewed this book").status = 400 := by
  have hv : ratingInvalid (some r) = false :=
    (ratingInvalid_eq_false_iff r).mpr ⟨hr1, hr5⟩
  unfold createReview
  rw [hv]
  simp only [Bool.false_eq_true, if_false]
  cases hbs : s.books.find? (fun b => b.id == bookId) with
  | none => rw [hbs] at hb; simp at hb
  | some b =>
    rw [hx]
    exact ⟨rfl, rfl⟩

/-- C2 witness: on `S1`, alice (who already holds review `rev1` of
book 1) submitting a second rating of 4 gets the duplicate error and
the store is unchanged. -/
theorem createReview_duplicate_witness :
    createReview S1 alice 1 (some 4) none
      = (.err (.duplicate "You have already reviewed this book"), S1) ∧
    (ApiError.duplicate "You have already reviewed this book").status = 400 :=
  createReview_duplicate S1 alice 1 4 none rev1 (by decide) (by decide)
    (by decide) (by decide)

/-- C3.  A requester who neither owns a review nor is an admin gets
the 403 forbidden error from both `PUT /reviews/:id` and
`DELETE /reviews/:id`, with the store returned unchanged. -/
theorem reviewMutation_forbidden (s : Store) (u : Claims) (reviewId : Nat)
    (rev : Review) (r : Rat) (t : Option String)
    (hfind : s.reviews.find? (fun x => x.id == reviewId) = some rev)
    (hown : rev.user_id ≠ u.id) (hrole : u.role ≠ "admin")
    (hr1 : 1 ≤ r) (hr5 : r ≤ 5) :
    updateReview s u reviewId (some r) t
      = (.err (.forbidden "You can only edit your own reviews"), s) ∧
    deleteReview s u reviewId
      = (.err (.forbidden "You can only delete your own reviews"), s) ∧
    (ApiError.forbidden "You can only edit your own reviews").status = 403 ∧
    (ApiError.forbidden "You can only delete your own reviews").status = 403 := by
  have hv : ratingInvalid (some r) = false :=
    (ratingInvalid_eq_false_iff r).mpr ⟨hr1, hr5⟩
  have hcond : (rev.user_id != u.id && u.role != "admin") = true := by
    simp only [Bool.and_eq_true, bne_iff_ne, ne_eq]
    exact ⟨fun h => hown h, fun h => hrole h⟩
  refine ⟨?_, ?_, rfl, rfl⟩
  · unfold updateReview
    rw [hv]
    simp only [Bool.false_eq_true, if_false]
    rw [hfind]
    simp only [hcond, if_true]
  · unfold deleteReview
    rw [hfind]
    simp only [hcond, if_true]

/-- C3 witness: on `S1`, bob (id 2, role user) attempting to update or
delete alice's review 1 is rejected with 403 and `S1` is unchanged. -/
theorem reviewMutation_forbidden_witness :
    updateReview S1 bob 1 (some 2) none
      = (.err (.forbidden "You can only edit your own reviews"), S1) ∧
    deleteReview S1 bob 1
      = (.err (.forbidden "You can only delete your own reviews"), S1) ∧
    (ApiError.forbidden "You can only edit your own reviews").status = 403 ∧
    (ApiError.forbidden "You can only delete your own reviews").status = 403 :=
  reviewMutation_forbidden S1 bob 1 rev1 2 none (by decide) (by decide)
    (by decide) (by decide) (by decide)

/-- C4.  A missing rating, or any rating outside `[1, 5]` (zero
included, being below 1), makes `POST /books/:id/reviews` fail with
the 400 validation error, whatever the store holds — in particular
before the book-existence and duplicate checks — leaving the store
unchanged, so no row is inserted. -/
theorem createReview_rejectsBadRating (s : Store) (u : Claims) (bookId : Nat)
    (rating : Option Rat) (t : Option String)
    (h : rating = none ∨ ∃ r, rating = some r ∧ (r < 1 ∨ 5 < r)) :
    createReview s u bookId rating t
      = (.err (.validation "Rating must be between 1 and 5"), s) ∧
    (ApiError.validation "Rating must be between 1 and 5").status = 400 := by
  have hv : ratingInvalid rating = true := by
    rcases h with h | ⟨r, hr, hlt | hgt⟩
    · rw [h]; rfl
    · rw [hr]
      simp [ratingInvalid, hlt]
    · rw [hr]
      simp [ratingInvalid, hgt]
  unfold createReview
  rw [hv]
  exact ⟨by simp, rfl⟩

/-- C4 witness: on `S1` (where book 1 exists and alice already has a
review, so the later checks could have fired instead), alice
submitting the falsy rating 0 gets the validation error and the store
is unchanged. -/
theorem createReview_rejectsBadRating_witness :
    createReview S1 alice 1 (some 0) none
      = (.err (.validation "Rating must be between 1 and 5"), S1) ∧
    (ApiError.validation "Rating must be between 1 and 5").status = 400 :=
  createReview_rejectsBadRating S1 alice 1 (some 0) none
    (Or.inr ⟨0, rfl, Or.inl (by decide)⟩)

/-- The rational 7/2 = 3.5, in lowest terms: a rating JavaScript can
receive that is inside `[1, 5]` but is not an integer. -/
def midRating : Rat := ⟨7, 2, by decide, by decide⟩

/-- C5 counterexample: the handlers' test is `!rating || rating < 1 ||
rating > 5`, with no integrality check, so the non-integer rating 3.5
— inside the range — is accepted by `POST /books/:id/reviews` and the
row is inserted with rating 3.5, refuting the claim that the
application layer rejects every non-integer rating with a
validation error. -/
theorem createReview_acceptsNonIntegerRating :
    (∀ n : ℤ, (n : ℚ) ≠ midRating) ∧
    1 ≤ midRating ∧ midRating ≤ 5 ∧
    (createReview S2 bob 1 (some midRating) none).1 = .ok 1 ∧
    (createReview S2 bob 1 (some midRating) none).2.reviews
      = [⟨1, 1, 2, midRating, none⟩] := by
  refine ⟨fun n h => ?_, by decide, by decide, by decide, by decide⟩
  have hd := congrArg Rat.den h
  rw [Rat.den_intCast] at hd
  exact absurd hd.symm (by decide)

/-- C5 as amended.  What the application layer does enforce on both
`POST /books/:id/reviews` and `PUT /reviews/:id`: any accepted
request carried a present rating in the range `[1, 5]`; integrality
is not checked by the handlers (the storage layer's INT column is
what coerces the value). -/
theorem acceptedRating_inRange (s : Store) (u : Claims) (i : Nat)
    (rating : Option Rat) (t : Option String)
    (h : (createReview s u i rating t).1.isOk = true ∨
         (updateReview s u i rating t).1.isOk = true) :
    ∃ r, rating = some r ∧ 1 ≤ r ∧ r ≤ 5 := by
  have hv : ratingInvalid rating = false := by
    by_contra hne
    have hv' : ratingInvalid rating = true := by
      cases hr : ratingInvalid rating
      · exact absurd hr hne
      · rfl
    rcases h with h | h
    · unfold createReview at h
      rw [hv'] at h
      simp [Res.isOk] at h
    · unfold updateReview at h
      rw [hv'] at h
      simp [Res.isOk] at h
  cases rating with
  | none => exact absurd hv (by simp [ratingInvalid])
  | some r =>
    exact ⟨r, rfl, (ratingInvalid_eq_false_iff r).mp hv⟩

/-- C5 amended witness: bob's accepted rating 4 on the fresh store
`S2` is indeed present and within `[1, 5]`. -/
theorem acceptedRating_inRange_witness :
    ∃ r, (some (4 : ℚ)) = some r ∧ 1 ≤ r ∧ r ≤ 5 :=
  acceptedRating_inRange S2 bob 1 (some 4) none (Or.inl (by decide))

/-- C6.  On token-protected routes a missing header yields 401
"Access token required" and an invalid/malformed/expired token yields
401 "Invalid token"; on admin-restricted operations a valid token
whose role is not `admin` yields 403, and in every one of these cases
the mutating handler (`POST /books`) returns the store unchanged, so
the rejection happens before any store mutation. -/
theorem tokenGuard_and_adminGate (s : Store) (body : BookInput) (c : Claims)
    (hrole : c.role ≠ "admin") :
    postBook s .missing body
      = (.err (.unauthorized "Access token required"), s) ∧
    postBook s .invalid body
      = (.err (.unauthorized "Invalid token"), s) ∧
    getUsers s .missing = .err (.unauthorized "Access token required") ∧
    getUsers s .invalid = .err (.unauthorized "Invalid token") ∧
    postBook s (.valid c) body
      = (.err (.forbidden "Access denied. Admin privileges required."), s) ∧
    getUsers s (.valid c)
      = .err (.forbidden "Access denied. Admin privileges required.") ∧
    (ApiError.unauthorized "Access token required").status = 401 ∧
    (ApiError.unauthorized "Invalid token").status = 401 ∧
    (ApiError.forbidden "Access denied. Admin privileges required.").status
      = 403 := by
  have hb : (c.role != "admin") = true := by
    simp only [bne_iff_ne, ne_eq]
    exact hrole
  refine ⟨rfl, rfl, rfl, rfl, ?_, ?_, rfl, rfl, rfl⟩
  · unfold postBook verifyToken
    simp only [hb, if_true]
  · unfold getUsers verifyToken
    simp only [hb, if_true]

/-- C6 witness: on `S1`, alice (role `user`) and tokenless or
bad-token requests are turned away from `POST /books` and
`GET /users` with the stated statuses and no store change. -/
theorem tokenGuard_and_adminGate_witness :
    postBook S1 .missing ⟨some "t", some "a", none, none, none, none, none⟩
      = (.err (.unauthorized "Access token required"), S1) ∧
    postBook S1 .invalid ⟨some "t", some "a", none, none, none, none, none⟩
      = (.err (.unauthorized "Invalid token"), S1) ∧
    getUsers S1 .missing = .err (.unauthorized "Access token required") ∧
    getUsers S1 .invalid = .err (.unauthorized "Invalid token") ∧
    postBook S1 (.valid alice) ⟨some "t", some "a", none, none, none, none, none⟩
      = (.err (.forbidden "Access denied. Admin privileges required."), S1) ∧
    getUsers S1 (.valid alice)
      = .err (.forbidden "Access denied. Admin privileges required.") ∧
    (ApiError.unauthorized "Access token required").status = 401 ∧
    (ApiError.unauthorized "Invalid token").status = 401 ∧
    (ApiError.forbidden "Access denied. Admin privileges required.").status
      = 403 :=
  tokenGuard_and_adminGate S1
    ⟨some "t", some "a", none, none, none, none, none⟩ alice (by decide)

/-- C7.  Deleting an image is decided transitively from the parent
review fetched via the image's `review_id` (the image row stores no
owner): it succeeds exactly when the requester owns that review or is
an admin, and a non-owner non-admin gets the 403 forbidden error with
the store — the image included — unchanged. -/
theorem deleteImage_ownerOrAdmin (s : Store) (u : Claims) (imageId : Nat)
    (img : Image) (rev : Review)
    (himg : s.images.find? (fun i => i.id == imageId) = some img)
    (hrev : s.reviews.find? (fun r => r.id == img.review_id) = some rev) :
    ((deleteImage s u imageId).1.isOk = true
      ↔ (u.id = rev.user_id ∨ u.role = "admin")) ∧
    (u.id ≠ rev.user_id → u.role ≠ "admin" →
      deleteImage s u imageId
        = (.err (.forbidden "You can only delete images from your own reviews"),
           s)) ∧
    (ApiError.forbidden "You can only delete images from your own reviews").status
      = 403 := by
  refine ⟨?_, fun hown hrole => ?_, rfl⟩
  · unfold deleteImage
    simp only [himg, hrev]
    cases hb : (rev.user_id != u.id && u.role != "admin") with
    | false =>
      constructor
      · intro _
        rcases (ownerGate_eq_false_iff rev.user_id u.id u.role).mp hb with h | h
        · exact Or.inl h.symm
        · exact Or.inr h
      · intro _
        rfl
    | true =>
      constructor
      · intro h
        exact absurd h Bool.false_ne_true
      · intro hor
        have hor' : rev.user_id = u.id ∨ u.role = "admin" := by
          rcases hor with h | h
          · exact Or.inl h.symm
          · exact Or.inr h
        have hf := (ownerGate_eq_false_iff rev.user_id u.id u.role).mpr hor'
        rw [hb] at hf
        exact absurd hf (by decide)
  · unfold deleteImage
    simp only [himg, hrev]
    have hb : (rev.user_id != u.id && u.role != "admin") = true := by
      simp only [Bool.and_eq_true, bne_iff_ne, ne_eq]
      exact ⟨fun h => hown h.symm, hrole⟩
    rw [if_pos hb]

/-- C7 witness: on `S1`, bob (not the owner of review 1, not admin)
cannot delete alice's image 1 and receives 403 with `S1` unchanged;
the success side of the equivalence is refuted at bob. -/
theorem deleteImage_ownerOrAdmin_witness :
    ((deleteImage S1 bob 1).1.isOk = true
      ↔ (bob.id = rev1.user_id ∨ bob.role = "admin")) ∧
    (bob.id ≠ rev1.user_id → bob.role ≠ "admin" →
      deleteImage S1 bob 1
        = (.err (.forbidden "You can only delete images from your own reviews"),
           S1)) ∧
    (ApiError.forbidden "You can only delete images from your own reviews").status
      = 403 :=
  deleteImage_ownerOrAdmin S1 bob 1 img1 rev1 (by decide) (by decide)

/-- C8.  A valid registration (all three fields present, email not yet
taken) stores a row with role `user` (the schema default) and a hash
of the password, and a subsequent login with the same email and
password succeeds with a token whose decoded claims — id, email, name,
role — are exactly those of the stored user. -/
theorem register_then_login (s : Store) (n e p : String)
    (hn : n ≠ "") (he : e ≠ "") (hp : p ≠ "")
    (hfresh : ∀ x ∈ s.users, x.email ≠ e) :
    (register s (some n) (some e) (some p)).1
      = .ok ⟨s.nextUserId, e, n, "user"⟩ ∧
    (register s (some n) (some e) (some p)).2.users
      = s.users ++ [⟨s.nextUserId, n, e, bcryptHash p, "user"⟩] ∧
    login (register s (some n) (some e) (some p)).2 (some e) (some p)
      = .ok ⟨s.nextUserId, e, n, "user"⟩ := by
  have hsm : ∀ str : String, str ≠ "" → strMissing (some str) = false := by
    intro str hstr
    simp [strMissing, hstr]
  have hnone : s.users.find? (fun x => x.email == e) = none := by
    apply List.find?_eq_none.mpr
    intro x hx
    simpa using hfresh x hx
  have hreg : register s (some n) (some e) (some p)
      = (.ok ⟨s.nextUserId, e, n, "user"⟩,
         { s with users := s.users ++ [⟨s.nextUserId, n, e, bcryptHash p, "user"⟩]
                  nextUserId := s.nextUserId + 1 }) := by
    unfold register
    rw [hsm n hn, hsm e he, hsm p hp]
    simp only [Bool.or_self, Bool.false_eq_true, if_false, Option.getD_some, hnone]
  refine ⟨by rw [hreg], by rw [hreg], ?_⟩
  rw [hreg]
  unfold login
  rw [hsm e he, hsm p hp]
  simp only [Bool.or_self, Bool.false_eq_true, if_false, Option.getD_some]
  rw [List.find?_append, hnone]
  simp only [Option.none_or, List.find?_cons, beq_self_eq_true, if_true]
  simp [bcryptCompare]

/-- C8 witness: registering Dan on `S1` with a fresh email stores
`⟨5, "Dan", "dan@example.com", hash, "user"⟩` and logging in with the
same credentials returns a token with exactly those claims. -/
theorem register_then_login_witness :
    (register S1 (some "Dan") (some "dan@example.com") (some "pw4")).1
      = .ok ⟨S1.nextUserId, "dan@example.com", "Dan", "user"⟩ ∧
    (register S1 (some "Dan") (some "dan@example.com") (some "pw4")).2.users
      = S1.users
          ++ [⟨S1.nextUserId, "Dan", "dan@example.com", bcryptHash "pw4", "user"⟩] ∧
    login (register S1 (some "Dan") (some "dan@example.com") (some "pw4")).2
        (some "dan@example.com") (some "pw4")
      = .ok ⟨S1.nextUserId, "dan@example.com", "Dan", "user"⟩ :=
  register_then_login S1 "Dan" "dan@example.com" "pw4" (by decide) (by decide)
    (by decide) (by decide)

/-- C9.  Adding an image to a review is ownership-gated like deletion:
a requester who neither owns the target review nor is an admin gets
the 403 forbidden error from `POST /reviews/:id/images` and the store
is returned unchanged, so no image row is inserted. -/
theorem addImage_forbidden (s : Store) (u : Claims) (reviewId : Nat)
    (rev : Review) (url : String) (iname : Option String)
    (hurl : url ≠ "")
    (hrev : s.reviews.find? (fun r => r.id == reviewId) = some rev)
    (hown : rev.user_id ≠ u.id) (hrole : u.role ≠ "admin") :
    addImage s u reviewId (some url) iname
      = (.err (.forbidden "You can only add images to your own reviews"), s) ∧
    (ApiError.forbidden "You can only add images to your own reviews").status
      = 403 := by
  have hsm : strMissing (some url) = false := by
    simp [strMissing, hurl]
  have hb : (rev.user_id != u.id && u.role != "admin") = true := by
    simp only [Bool.and_eq_true, bne_iff_ne, ne_eq]
    exact ⟨hown, hrole⟩
  refine ⟨?_, rfl⟩
  unfold addImage
  rw [hsm]
  simp only [Bool.false_eq_true, if_false, hrev]
  rw [if_pos hb]

/-- C9 witness: on `S1`, bob (not the owner of alice's review 1, not
admin) is refused an image upload with 403 and `S1` is unchanged. -/
theorem addImage_forbidden_witness :
    addImage S1 bob 1 (some "http://example.com/b.png") none
      = (.err (.forbidden "You can only add images to your own reviews"), S1) ∧
    (ApiError.forbidden "You can only add images to your own reviews").status
      = 403 :=
  addImage_forbidden S1 bob 1 rev1 "http://example.com/b.png" none
    (by decide) (by decide) (by decide) (by decide)

/-- C10.  `PUT /profile` re-submitting the requester's own current
email succeeds: the duplicate pre-check is `WHERE email = ? AND
id != ?`, which excludes the requester's own row, so when nobody else
holds the email the update goes through and the requester's row now
carries the submitted name and email. -/
theorem updateProfile_ownEmail (s : Store) (u : Claims) (n e : String)
    (hn : n ≠ "") (he : e ≠ "")
    (hcurrent : ∃ x ∈ s.users, x.id = u.id ∧ x.email = e)
    (huniq : ∀ x ∈ s.users, x.email = e → x.id = u.id) :
    (updateProfile s u (some n) (some e)).1 = .ok () ∧
    (∀ y ∈ (updateProfile s u (some n) (some e)).2.users,
      y.id = u.id → y.name = n ∧ y.email = e) := by
  have hsm : ∀ str : String, str ≠ "" → strMissing (some str) = false := by
    intro str hstr
    simp [strMissing, hstr]
  have hnone : s.users.find? (fun x => x.email == e && x.id != u.id) = none := by
    apply List.find?_eq_none.mpr
    intro x hx
    simp only [Bool.and_eq_true, beq_iff_eq, bne_iff_ne, ne_eq, not_and]
    intro hemail hid
    exact hid (huniq x hx hemail)
  have hprof : updateProfile s u (some n) (some e)
      = (.ok (),
         { s with users := s.users.map (fun x =>
             if x.id == u.id then { x with name := n, email := e } else x) }) := by
    unfold updateProfile
    rw [hsm n hn, hsm e he]
    simp only [Bool.or_self, Bool.false_eq_true, if_false, Option.getD_some, hnone]
  rw [hprof]
  refine ⟨rfl, ?_⟩
  intro y hy hid
  rcases List.mem_map.mp hy with ⟨x, hx, hfx⟩
  cases hxb : (x.id == u.id) with
  | true =>
    rw [hxb] at hfx
    simp only [if_true] at hfx
    rw [← hfx]
    exact ⟨rfl, rfl⟩
  | false =>
    rw [hxb] at hfx
    simp only [Bool.false_eq_true, if_false] at hfx
    rw [← hfx] at hid
    exact absurd (beq_iff_eq.mpr hid) (by rw [hxb]; exact Bool.false_ne_true)

/-- C10 witness: alice re-submits her unchanged email
`alice@example.com` on `S1`; the update succeeds and her row carries
the submitted name and email. -/
theorem updateProfile_ownEmail_witness :
    (updateProfile S1 alice (some "Alice") (some "alice@example.com")).1
      = .ok () ∧
    (∀ y ∈ (updateProfile S1 alice
        (some "Alice") (some "alice@example.com")).2.users,
      y.id = alice.id → y.name = "Alice" ∧ y.email = "alice@example.com") :=
  updateProfile_ownEmail S1 alice "Alice" "alice@example.com" (by decide)
    (by decide) ⟨userRow alice "pw1", by decide, by decide, by decide⟩
    (by decide)

end BookReview
